import Mathlib

/-!
# Verification of `barman/output.py`

A shallow embedding of the `barman.output` module: the message formatter,
the global error state, the output-writer classes (`ConsoleOutputWriter`,
`NagiosOutputWriter`), and the module-level facade functions
(`debug`/`info`/`warning`/`error`/`exception`/`init`/`result`/`close`/
`close_and_exit`/`set_output_writer`).

Python strings/ints appearing as formatting arguments are modelled by
`PyVal`; the `%` interpolation operator is modelled (for the directive
subset `%s`, `%d`, `%%`, `%(key)s` used by the module) by `pymod_tuple`
and `pymod_dict`.  Stateful code is modelled by explicit state passing:
the module globals (`error_occurred`, `error_exit_code`, `_writer`) form
`ModuleState`, and each facade operation returns an `Outcome` holding the
new state, the observable events (printed lines, writer method
invocations) and an optional termination (process exit or a propagated
exception).  Mirroring the logging side channel (`logging.getLogger`,
stack inspection) is outside the module's state and is not modelled.
-/

set_option autoImplicit false

namespace Barman

/-- A Python value used as a formatting argument: a string or an integer. -/
inductive PyVal where
  | pstr (s : String)
  | pint (n : Int)
deriving DecidableEq, Repr

/-- Python `str(v)`. -/
def PyVal.toDisplay : PyVal → String
  | .pstr s => s
  | .pint n => toString n

/-- One element of the `args` tuple received by `_format_message`:
either a plain value or a dictionary (Python `dict`). -/
inductive PyArg where
  | val (v : PyVal)
  | dict (m : List (String × PyVal))
deriving DecidableEq, Repr

/-- Rendering of an argument at a `%s` directive (for a dictionary this
approximates Python's `repr`; no call in the module formats a dictionary
positionally). -/
def PyArg.display : PyArg → String
  | .val v => v.toDisplay
  | .dict m =>
      "\x7b" ++ String.intercalate ", "
        (m.map (fun p => p.1 ++ ": " ++ p.2.toDisplay)) ++ "\x7d"

/-- Python `%` interpolation of a template against a tuple of positional
arguments, for the directive subset used by the module (`%s`, `%d`,
`%%`).  A directive with no remaining argument is kept literally
(Python would raise; the module never does this). -/
def interpPos : List Char → List PyArg → List Char
  | [], _ => []
  | '%' :: '%' :: rest, vs => '%' :: interpPos rest vs
  | '%' :: 's' :: rest, v :: vs => v.display.data ++ interpPos rest vs
  | '%' :: 'd' :: rest, v :: vs => v.display.data ++ interpPos rest vs
  | c :: rest, vs => c :: interpPos rest vs

/-- Dictionary lookup used by `%(key)s` directives; a missing key raises
`KeyError` in Python and is never reached by the module's templates. -/
def dictLookup (m : List (String × PyVal)) (k : String) : String :=
  match m.find? (fun p => p.1 == k) with
  | some p => p.2.toDisplay
  | none => ""

mutual

/-- Python `%` interpolation of a template against a mapping
(`template % mapping`), directives `%(key)s` and `%%`. -/
def interpMap : List Char → List (String × PyVal) → List Char
  | [], _ => []
  | '%' :: '(' :: rest, m => interpMapKey rest [] m
  | '%' :: '%' :: rest, m => '%' :: interpMap rest m
  | c :: rest, m => c :: interpMap rest m
termination_by l _ => l.length

/-- Scanner state while reading the key of a `%(key)s` directive;
`acc` holds the key characters read so far, reversed. -/
def interpMapKey : List Char → List Char → List (String × PyVal) → List Char
  | [], _, _ => []
  | ')' :: 's' :: rest, acc, m =>
      (dictLookup m (String.mk acc.reverse)).data ++ interpMap rest m
  | c :: rest, acc, m => interpMapKey rest (c :: acc) m
termination_by l _ _ => l.length

end

/-- `message % args` for a tuple of positional arguments. -/
def pymod_tuple (message : String) (args : List PyArg) : String :=
  ⟨interpPos message.data args⟩

/-- `message % mapping` for a dictionary argument. -/
def pymod_dict (message : String) (m : List (String × PyVal)) : String :=
  ⟨interpMap message.data m⟩

/-- `_format_message(message, args)` (output.py lines 43-63):
if `args` is a single dictionary, `message % args[0]`;
otherwise if `args` is non-empty, `message % args`;
otherwise `message` unchanged. -/
def _format_message (message : String) (args : List PyArg) : String :=
  match args with
  | [PyArg.dict m] => pymod_dict message m
  | [] => message
  | args => pymod_tuple message args

/-- C5: `_format_message` returns `t % m` on a single-mapping argument
list, `t % args` on every other non-empty argument list (a single
non-mapping value, or two or more arguments), and the template unchanged
on an empty argument list. -/
theorem format_message_cases (t : String) (m : List (String × PyVal))
    (v : PyVal) (x y : PyArg) (rest : List PyArg) :
    _format_message t [PyArg.dict m] = pymod_dict t m ∧
    _format_message t [PyArg.val v] = pymod_tuple t [PyArg.val v] ∧
    _format_message t (x :: y :: rest) = pymod_tuple t (x :: y :: rest) ∧
    _format_message t [] = t :=
  ⟨rfl, rfl, by cases x <;> rfl, rfl⟩

/-- The record appended by `ConsoleOutputWriter._record_check`:
`dict(server_name=..., check=..., status=..., hint=...)`. -/
structure CheckResult where
  server_name : String
  check : String
  status : Bool
  hint : Option String
deriving DecidableEq, Repr

/-- The record appended by `ConsoleOutputWriter.result_status`. -/
structure StatusResult where
  server_name : String
  status : String
  description : String
  message : String
deriving DecidableEq, Repr

/-- A tablespace entry (`name`, `location`, `oid`) as referenced by the
rendering code. -/
structure Tablespace where
  name : String
  location : String
  oid : String
deriving DecidableEq, Repr

/-- Modelled from the spec: `barman.infofile.BackupInfo` is an external
collaborator (its module is not part of the shown source); only the
fields read by `result_list_backup` are modelled, with `end_time.ctime()`
modelled as the precomputed string `end_time_ctime`. -/
structure BackupInfo where
  server_name : String
  backup_id : String
  status : String
  end_time_ctime : String
  tablespaces : List Tablespace
deriving DecidableEq, Repr

/-- Modelled from the spec: the "completed" member of the external
status enumeration (`BackupInfo.DONE`); only equality with it matters. -/
def BackupInfo.DONE : String := "DONE"

/-- Modelled from the spec: `barman.utils.pretty_size`, the external
size-humanizing utility; rendered abstractly as the byte count (none of
the verified properties depends on its exact text). -/
def pretty_size (n : Int) : String := toString n ++ " B"

/-- The dictionary handed to `result_show_backup`
(`Server.get_backup_ext_info()`), modelled as a record of the keys the
method reads.  `retention_policy_status` and `error` are always-present
keys whose value may be `None` (`none`) or a string; for
`previous_backup_id`/`next_backup_id` the outer `Option` models key
presence (the method uses `setdefault`) and the inner `Option` models a
`None` value. -/
structure BackupExtInfo where
  backup_id : String
  server_name : String
  status : String
  version : String
  pgdata : String
  tablespaces : List Tablespace
  size : Int
  wal_size : Int
  timeline : String
  begin_wal : String
  end_wal : String
  wal_num : String
  begin_time : String
  end_time : String
  begin_offset : String
  end_offset : String
  begin_xlog : String
  end_xlog : String
  wal_until_next_num : String
  wal_until_next_size : Int
  wal_last : String
  retention_policy_status : Option String
  previous_backup_id : Option (Option String)
  next_backup_id : Option (Option String)
  error : Option String
deriving DecidableEq, Repr

/-- Python truthiness of an optional string: `None` and `""` are falsy. -/
def optTruthy (o : Option String) : Bool := !(o.getD "" == "")

/-- The module globals `error_occurred` (line 37) and `error_exit_code`
(line 40). -/
structure Globals where
  error_occurred : Bool
  error_exit_code : Int
deriving DecidableEq, Repr

/-- Output streams of the process. -/
inductive StdStream where
  | stdout
  | stderr
deriving DecidableEq, Repr

/-- One printed line, with the stream it goes to. -/
structure Line where
  stream : StdStream
  text : String
deriving DecidableEq, Repr

/-- Message severities, i.e. the names of the per-severity writer
methods looked up by `_put` via `getattr(_writer, level)`. -/
inductive Level where
  | debug
  | info
  | warning
  | error
  | exception
deriving DecidableEq, Repr

/-- The mutable state of a `ConsoleOutputWriter` (shared by its subclass
`NagiosOutputWriter`): constructor flags, the two record lists, and the
minimal-mode flag. -/
structure ConsoleOutputWriter where
  _debug : Bool
  _quiet : Bool
  result_check_list : List CheckResult
  result_status_list : List StatusResult
  minimal : Bool
deriving Repr

/-- `ConsoleOutputWriter.__init__(debug, quiet)`. -/
def ConsoleOutputWriter.new (dbg quiet : Bool) : ConsoleOutputWriter :=
  ⟨dbg, quiet, [], [], false⟩

/-- `_out`: print to stdout for `ConsoleOutputWriter`; the
`NagiosOutputWriter` override (`nag = true`) prints nothing. -/
def classOut (nag : Bool) (message : String) (args : List PyArg) : List Line :=
  if nag then [] else [⟨.stdout, _format_message message args⟩]

/-- `_err`: print to stderr for `ConsoleOutputWriter`; the
`NagiosOutputWriter` override (`nag = true`) prints nothing. -/
def classErr (nag : Bool) (message : String) (args : List PyArg) : List Line :=
  if nag then [] else [⟨.stderr, _format_message message args⟩]

/-- The per-severity emit methods of `ConsoleOutputWriter`
(lines 314-344): `debug` only in debug mode (stderr, `DEBUG: ` prefix
applied to the template), `info` unless quiet (stdout),
`warning`/`error`/`exception` always (stderr, prefixed). -/
def classEmit (nag : Bool) (w : ConsoleOutputWriter) :
    Level → String → List PyArg → List Line
  | .debug, m, a => if w._debug then classErr nag ("DEBUG: " ++ m) a else []
  | .info, m, a => if w._quiet then [] else classOut nag m a
  | .warning, m, a => classErr nag ("WARNING: " ++ m) a
  | .error, m, a => classErr nag ("ERROR: " ++ m) a
  | .exception, m, a => classErr nag ("EXCEPTION: " ++ m) a

namespace ConsoleOutputWriter

/-- `_record_check(server_name, check, status, hint)` (lines 367-382):
append the record; if the check failed set the global `error_occurred`. -/
def _record_check (w : ConsoleOutputWriter) (server_name check : String)
    (status : Bool) (hint : Option String) (g : Globals) :
    ConsoleOutputWriter × Globals :=
  ({ w with result_check_list :=
      w.result_check_list ++ [⟨server_name, check, status, hint⟩] },
   if status then g else { g with error_occurred := true })

/-- `init_check(server_name)`: `self.info("Server %s:" % server_name)`
(the template is interpolated at the call site, no arguments passed on). -/
def init_check (nag : Bool) (w : ConsoleOutputWriter) (server_name : String)
    (g : Globals) : ConsoleOutputWriter × Globals × List Line :=
  (w, g, classEmit nag w .info ("Server " ++ server_name ++ ":") [])

/-- `result_check(server_name, check, status, hint=None)`
(lines 392-409): record the check, then print the tab-indented line;
the hint suffix is added only when `hint` is truthy. -/
def result_check (nag : Bool) (w : ConsoleOutputWriter)
    (server_name check : String) (status : Bool) (hint : Option String)
    (g : Globals) : ConsoleOutputWriter × Globals × List Line :=
  let p := w._record_check server_name check status hint g
  let okTxt := if status then "OK" else "FAILED"
  let line :=
    if optTruthy hint then
      "\t" ++ check ++ ": " ++ okTxt ++ " (" ++ hint.getD "" ++ ")"
    else
      "\t" ++ check ++ ": " ++ okTxt
  (p.1, p.2, classEmit nag p.1 .info line [])

/-- `init_list_backup(server_name, minimal=False)`: set minimal mode. -/
def init_list_backup (w : ConsoleOutputWriter) (_server_name : String)
    (minimal : Bool) (g : Globals) : ConsoleOutputWriter × Globals × List Line :=
  ({ w with minimal := minimal }, g, [])

/-- `result_backup(backup_info)`: nothing to do for console. -/
def result_backup (w : ConsoleOutputWriter) (_backup_info : BackupInfo)
    (g : Globals) : ConsoleOutputWriter × Globals × List Line :=
  (w, g, [])

/-- `result_list_backup(backup_info, backup_size, wal_size,
retention_status)` (lines 420-455): in minimal mode only the backup id;
otherwise the one-line summary, with size/tablespace/retention details
for a `DONE` backup and the bare status otherwise. -/
def result_list_backup (nag : Bool) (w : ConsoleOutputWriter)
    (backup_info : BackupInfo) (backup_size wal_size : Int)
    (retention_status : Option String) (g : Globals) :
    ConsoleOutputWriter × Globals × List Line :=
  if w.minimal then
    (w, g, classEmit nag w .info backup_info.backup_id [])
  else
    let head := backup_info.server_name ++ " " ++ backup_info.backup_id ++ " - "
    let body :=
      if backup_info.status == BackupInfo.DONE then
        let sizes := backup_info.end_time_ctime ++ " - Size: " ++
          pretty_size backup_size ++ " - WAL Size: " ++ pretty_size wal_size
        let tbs :=
          if backup_info.tablespaces.isEmpty then ""
          else " (tablespaces: " ++ String.intercalate ", "
            (backup_info.tablespaces.map (fun t => t.name ++ ":" ++ t.location))
            ++ ")"
        let ret :=
          if optTruthy retention_status then
            " - " ++ retention_status.getD ""
          else ""
        sizes ++ tbs ++ ret
      else backup_info.status
    (w, g, classEmit nag w .info (head ++ body) [])

/-- `result_show_backup(backup_ext_info)` (lines 457-519), translated
line by line; each `self.info(template, arg)` call passes the template
and arguments through to the emit method unformatted. -/
def result_show_backup (nag : Bool) (w : ConsoleOutputWriter)
    (data : BackupExtInfo) (g : Globals) :
    ConsoleOutputWriter × Globals × List Line :=
  let inf := fun (m : String) (a : List PyArg) => classEmit nag w .info m a
  let header :=
    inf "Backup %s:" [.val (.pstr data.backup_id)] ++
    inf "  Server Name       : %s" [.val (.pstr data.server_name)] ++
    inf "  Status            : %s" [.val (.pstr data.status)]
  let body :=
    if data.status == BackupInfo.DONE then
      inf "  PostgreSQL Version: %s" [.val (.pstr data.version)] ++
      inf "  PGDATA directory  : %s" [.val (.pstr data.pgdata)] ++
      (if data.tablespaces.isEmpty then []
       else
        inf "  Tablespaces:" [] ++
        data.tablespaces.flatMap (fun item =>
          inf "    %s: %s (oid: %s)"
            [.val (.pstr item.name), .val (.pstr item.location),
             .val (.pstr item.oid)])) ++
      inf "" [] ++
      inf "  Base backup information:" [] ++
      inf "    Disk usage      : %s"
        [.val (.pstr (pretty_size (data.size + data.wal_size)))] ++
      inf "    Timeline        : %s" [.val (.pstr data.timeline)] ++
      inf "    Begin WAL       : %s" [.val (.pstr data.begin_wal)] ++
      inf "    End WAL         : %s" [.val (.pstr data.end_wal)] ++
      inf "    WAL number      : %s" [.val (.pstr data.wal_num)] ++
      inf "    Begin time      : %s" [.val (.pstr data.begin_time)] ++
      inf "    End time        : %s" [.val (.pstr data.end_time)] ++
      inf "    Begin Offset    : %s" [.val (.pstr data.begin_offset)] ++
      inf "    End Offset      : %s" [.val (.pstr data.end_offset)] ++
      inf "    Begin XLOG      : %s" [.val (.pstr data.begin_xlog)] ++
      inf "    End XLOG        : %s" [.val (.pstr data.end_xlog)] ++
      inf "" [] ++
      inf "  WAL information:" [] ++
      inf "    No of files     : %s" [.val (.pstr data.wal_until_next_num)] ++
      inf "    Disk usage      : %s"
        [.val (.pstr (pretty_size data.wal_until_next_size))] ++
      inf "    Last available  : %s" [.val (.pstr data.wal_last)] ++
      inf "" [] ++
      inf "  Catalog information:" [] ++
      inf "    Retention Policy: %s"
        [.val (.pstr (if optTruthy data.retention_policy_status then
            data.retention_policy_status.getD ""
          else "not enforced"))] ++
      inf "    Previous Backup : %s"
        [.val (.pstr (match data.previous_backup_id with
          | none => "not available"
          | some v =>
              if optTruthy v then v.getD ""
              else "- (this is the oldest base backup)"))] ++
      inf "    Next Backup     : %s"
        [.val (.pstr (match data.next_backup_id with
          | none => "not available"
          | some v =>
              if optTruthy v then v.getD ""
              else "- (this is the latest base backup)"))]
    else
      if optTruthy data.error then
        inf "  Error:            : %s" [.val (.pstr (data.error.getD ""))]
      else []
  (w, g, header ++ body)

/-- `init_status(server_name)`: `self.info("Server %s:", server_name)`
(template and argument passed separately). -/
def init_status (nag : Bool) (w : ConsoleOutputWriter) (server_name : String)
    (g : Globals) : ConsoleOutputWriter × Globals × List Line :=
  (w, g, classEmit nag w .info "Server %s:" [.val (.pstr server_name)])

/-- `result_status(server_name, status, description, message)`
(lines 528-543): stringify the message, append the record, print the
tab-indented description/message line. -/
def result_status (nag : Bool) (w : ConsoleOutputWriter)
    (server_name status description : String) (message : PyVal)
    (g : Globals) : ConsoleOutputWriter × Globals × List Line :=
  let msg := message.toDisplay
  let w' := { w with result_status_list :=
      w.result_status_list ++ [⟨server_name, status, description, msg⟩] }
  (w', g, classEmit nag w' .info "\t%s: %s"
    [.val (.pstr description), .val (.pstr msg)])

/-- `init_list_server(server_name, minimal=False)`: set minimal mode. -/
def init_list_server (w : ConsoleOutputWriter) (_server_name : String)
    (minimal : Bool) (g : Globals) : ConsoleOutputWriter × Globals × List Line :=
  ({ w with minimal := minimal }, g, [])

/-- `result_list_server(server_name, description=None)` (lines 553-563). -/
def result_list_server (nag : Bool) (w : ConsoleOutputWriter)
    (server_name : String) (description : Option String) (g : Globals) :
    ConsoleOutputWriter × Globals × List Line :=
  if w.minimal || !optTruthy description then
    (w, g, classEmit nag w .info "%s" [.val (.pstr server_name)])
  else
    (w, g, classEmit nag w .info "%s - %s"
      [.val (.pstr server_name), .val (.pstr (description.getD ""))])

/-- `init_show_server(server_name)`: `self.info("Server %s:" % server_name)`. -/
def init_show_server (nag : Bool) (w : ConsoleOutputWriter)
    (server_name : String) (g : Globals) :
    ConsoleOutputWriter × Globals × List Line :=
  (w, g, classEmit nag w .info ("Server " ++ server_name ++ ":") [])

/-- `result_show_server(server_name, server_info)` (lines 573-581):
one line per mapping entry, in iteration order. -/
def result_show_server (nag : Bool) (w : ConsoleOutputWriter)
    (_server_name : String) (server_info : List (String × PyVal))
    (g : Globals) : ConsoleOutputWriter × Globals × List Line :=
  (w, g, server_info.flatMap (fun p =>
    classEmit nag w .info "\t%s: %s" [.val (.pstr p.1), .val p.2]))

end ConsoleOutputWriter

/-- The accumulation loop of `NagiosOutputWriter.close` (lines 608-614):
walk the check results keeping the first-seen order of distinct server
names (`servers`) and of distinct server names with a failed check
(`issues`). -/
def nagiosScan :
    List CheckResult → List String → List String → List String × List String
  | [], servers, issues => (servers, issues)
  | item :: rest, servers, issues =>
      let servers' :=
        if item.server_name ∈ servers then servers
        else servers ++ [item.server_name]
      let issues' :=
        if item.status = false ∧ item.server_name ∉ issues then
          issues ++ [item.server_name]
        else issues
      nagiosScan rest servers' issues'

/-- `NagiosOutputWriter.close` (lines 602-621): print the aggregate
Nagios status line (the `%d` directives rendered as the decimal counts)
and escalate `error_exit_code` to 2 when any server has issues. -/
def NagiosOutputWriter.close (w : ConsoleOutputWriter) (g : Globals) :
    Globals × List Line :=
  let p := nagiosScan w.result_check_list [] []
  if 0 < p.2.length then
    ({ g with error_exit_code := 2 },
     [⟨.stdout, "BARMAN CRITICAL - " ++ toString p.2.length ++
        " server out of " ++ toString p.1.length ++ " has issues"⟩])
  else
    (g, [⟨.stdout, "BARMAN OK - Ready to serve the Espresso backup"⟩])

/-- A Python exception value; the facade's `init`/`result` distinguish
`ValueError` from every other class. -/
inductive PyExc where
  | valueError (msg : String)
  | other (msg : String)
deriving DecidableEq, Repr

/-- The positional/keyword arguments forwarded by the facade's
`init`/`result` to an `init_<command>`/`result_<command>` method,
as the argument shapes the module's writer methods accept. -/
inductive CommandArgs where
  | serverName (server_name : String)
  | serverMinimal (server_name : String) (minimal : Bool)
  | backup (backup_info : BackupInfo)
  | check (server_name check : String) (status : Bool) (hint : Option String)
  | listBackup (backup_info : BackupInfo) (backup_size wal_size : Int)
      (retention_status : Option String)
  | showBackup (backup_ext_info : BackupExtInfo)
  | statusArgs (server_name status description : String) (message : PyVal)
  | listServer (server_name : String) (description : Option String)
  | showServer (server_name : String) (server_info : List (String × PyVal))

/-- An output-writer object that is not an instance of the two classes
defined by the module: `set_output_writer` accepts any object, so the
active writer can be arbitrary.  Its behaviour is its method table; such
an object interacts with the module only through printed lines and
raised exceptions (it has no access to the module globals). -/
structure CustomWriter where
  className : String
  emitLines : Level → String → List PyArg → List Line
  errorHookLines : List Line
  methods : String → Option (CommandArgs → Except PyExc (List Line))
  closeLines : List Line

/-- The active output writer: one of the module's two classes (carrying
the shared `ConsoleOutputWriter` state) or an arbitrary object. -/
inductive Writer where
  | console (w : ConsoleOutputWriter)
  | nagios (w : ConsoleOutputWriter)
  | custom (o : CustomWriter)

/-- `_writer.__class__.__name__`. -/
def Writer.className : Writer → String
  | .console _ => "ConsoleOutputWriter"
  | .nagios _ => "NagiosOutputWriter"
  | .custom o => o.className

/-- `getattr(_writer, level)(message, *args)`: the per-severity emit
methods (pure printing; no writer or global state change). -/
def Writer.emit : Writer → Level → String → List PyArg → List Line
  | .console w => classEmit false w
  | .nagios w => classEmit true w
  | .custom o => o.emitLines

/-- `_writer.error_occurred()`: a no-op hook for both module classes
(lines 346-350), arbitrary printing for other objects. -/
def Writer.errorOccurredHook : Writer → List Line
  | .console _ => []
  | .nagios _ => []
  | .custom o => o.errorHookLines

/-- `_writer.close()`: a no-op for `ConsoleOutputWriter` (lines 352-357),
the aggregation for `NagiosOutputWriter`. -/
def Writer.close : Writer → Globals → Writer × Globals × List Line
  | .console w, g => (.console w, g, [])
  | .nagios w, g =>
      let p := NagiosOutputWriter.close w g
      (.nagios w, p.1, p.2)
  | .custom o, g => (.custom o, g, o.closeLines)

/-- The result type of a dispatched `init_*`/`result_*` method call:
the new writer, the new globals and the printed lines, or a raised
exception. -/
abbrev Handler := CommandArgs → Globals → Except PyExc (Writer × Globals × List Line)

/-- A call with arguments not matching the method's signature raises
`TypeError` (which the facade does not catch). -/
def typeErr : PyExc := .other "TypeError"

/-- The writer object rebuilt around updated `ConsoleOutputWriter`
state: the same class the state came from. -/
def wrClass (nag : Bool) (cw : ConsoleOutputWriter) : Writer :=
  if nag then .nagios cw else .console cw

/-- Bound method `init_check` as seen by `_dispatch`. -/
def h_init_check (nag : Bool) (w : ConsoleOutputWriter) : Handler := fun a g =>
  match a with
  | .serverName sn =>
      let r := ConsoleOutputWriter.init_check nag w sn g
      .ok (wrClass nag r.1, r.2.1, r.2.2)
  | _ => .error typeErr

/-- Bound method `result_check` as seen by `_dispatch`. -/
def h_result_check (nag : Bool) (w : ConsoleOutputWriter) : Handler := fun a g =>
  match a with
  | .check sn c st hi =>
      let r := ConsoleOutputWriter.result_check nag w sn c st hi g
      .ok (wrClass nag r.1, r.2.1, r.2.2)
  | _ => .error typeErr

/-- Bound method `init_list_backup` as seen by `_dispatch`. -/
def h_init_list_backup (nag : Bool) (w : ConsoleOutputWriter) : Handler := fun a g =>
  match a with
  | .serverMinimal sn mini =>
      let r := ConsoleOutputWriter.init_list_backup w sn mini g
      .ok (wrClass nag r.1, r.2.1, r.2.2)
  | _ => .error typeErr

/-- Bound method `result_backup` as seen by `_dispatch`. -/
def h_result_backup (nag : Bool) (w : ConsoleOutputWriter) : Handler := fun a g =>
  match a with
  | .backup bi =>
      let r := ConsoleOutputWriter.result_backup w bi g
      .ok (wrClass nag r.1, r.2.1, r.2.2)
  | _ => .error typeErr

/-- Bound method `result_list_backup` as seen by `_dispatch`. -/
def h_result_list_backup (nag : Bool) (w : ConsoleOutputWriter) : Handler := fun a g =>
  match a with
  | .listBackup bi bs ws rs =>
      let r := ConsoleOutputWriter.result_list_backup nag w bi bs ws rs g
      .ok (wrClass nag r.1, r.2.1, r.2.2)
  | _ => .error typeErr

/-- Bound method `result_show_backup` as seen by `_dispatch`. -/
def h_result_show_backup (nag : Bool) (w : ConsoleOutputWriter) : Handler := fun a g =>
  match a with
  | .showBackup bei =>
      let r := ConsoleOutputWriter.result_show_backup nag w bei g
      .ok (wrClass nag r.1, r.2.1, r.2.2)
  | _ => .error typeErr

/-- Bound method `init_status` as seen by `_dispatch`. -/
def h_init_status (nag : Bool) (w : ConsoleOutputWriter) : Handler := fun a g =>
  match a with
  | .serverName sn =>
      let r := ConsoleOutputWriter.init_status nag w sn g
      .ok (wrClass nag r.1, r.2.1, r.2.2)
  | _ => .error typeErr

/-- Bound method `result_status` as seen by `_dispatch`. -/
def h_result_status (nag : Bool) (w : ConsoleOutputWriter) : Handler := fun a g =>
  match a with
  | .statusArgs sn st de me =>
      let r := ConsoleOutputWriter.result_status nag w sn st de me g
      .ok (wrClass nag r.1, r.2.1, r.2.2)
  | _ => .error typeErr

/-- Bound method `init_list_server` as seen by `_dispatch`. -/
def h_init_list_server (nag : Bool) (w : ConsoleOutputWriter) : Handler := fun a g =>
  match a with
  | .serverMinimal sn mini =>
      let r := ConsoleOutputWriter.init_list_server w sn mini g
      .ok (wrClass nag r.1, r.2.1, r.2.2)
  | _ => .error typeErr

/-- Bound method `result_list_server` as seen by `_dispatch`. -/
def h_result_list_server (nag : Bool) (w : ConsoleOutputWriter) : Handler := fun a g =>
  match a with
  | .listServer sn de =>
      let r := ConsoleOutputWriter.result_list_server nag w sn de g
      .ok (wrClass nag r.1, r.2.1, r.2.2)
  | _ => .error typeErr

/-- Bound method `init_show_server` as seen by `_dispatch`. -/
def h_init_show_server (nag : Bool) (w : ConsoleOutputWriter) : Handler := fun a g =>
  match a with
  | .serverName sn =>
      let r := ConsoleOutputWriter.init_show_server nag w sn g
      .ok (wrClass nag r.1, r.2.1, r.2.2)
  | _ => .error typeErr

/-- Bound method `result_show_server` as seen by `_dispatch`. -/
def h_result_show_server (nag : Bool) (w : ConsoleOutputWriter) : Handler := fun a g =>
  match a with
  | .showServer sn si =>
      let r := ConsoleOutputWriter.result_show_server nag w sn si g
      .ok (wrClass nag r.1, r.2.1, r.2.2)
  | _ => .error typeErr

/-- `getattr(obj, method_name, None)` restricted to the
`init_*`/`result_*` names `_dispatch` can produce, together with the
`callable(handler)` test, for the two module classes: exactly the twelve
command methods of `ConsoleOutputWriter` (all inherited unchanged by
`NagiosOutputWriter`, whose `nag` flag only silences printing).  Data
attributes such as `result_check_list` are not callable, hence `none`. -/
def classGetattr (nag : Bool) (w : ConsoleOutputWriter) (name : String) :
    Option Handler :=
  if name == "init_check" then some (h_init_check nag w)
  else if name == "result_check" then some (h_result_check nag w)
  else if name == "init_list_backup" then some (h_init_list_backup nag w)
  else if name == "result_backup" then some (h_result_backup nag w)
  else if name == "result_list_backup" then some (h_result_list_backup nag w)
  else if name == "result_show_backup" then some (h_result_show_backup nag w)
  else if name == "init_status" then some (h_init_status nag w)
  else if name == "result_status" then some (h_result_status nag w)
  else if name == "init_list_server" then some (h_init_list_server nag w)
  else if name == "result_list_server" then some (h_result_list_server nag w)
  else if name == "init_show_server" then some (h_init_show_server nag w)
  else if name == "result_show_server" then some (h_result_show_server nag w)
  else none

/-- Method lookup on the active writer. -/
def Writer.getattr : Writer → String → Option Handler
  | .console w, name => classGetattr false w name
  | .nagios w, name => classGetattr true w name
  | .custom o, name =>
      (o.methods name).map (fun f a g =>
        (f a).map (fun ls => (Writer.custom o, g, ls)))

/-- `_dispatch(obj, prefix, name, *args, **kwargs)` (lines 108-126):
call the `<prefix>_<name>` method, or raise `ValueError` when the
attribute is missing or not callable. -/
def _dispatch (w : Writer) (pre name : String) (args : CommandArgs)
    (g : Globals) : Except PyExc (Writer × Globals × List Line) :=
  let method_name := pre ++ "_" ++ name
  match w.getattr method_name with
  | some handler => handler args g
  | none => .error (.valueError ("The object " ++ w.className ++
      " does not have the " ++ method_name ++ " method"))

/-- An observable step of the module: a printed line, the invocation of
a per-severity emit method on a writer (with the template and arguments
passed to it), or the invocation of `close()` on a writer. -/
inductive Event where
  | line (l : Line)
  | emitCall (w : Writer) (level : Level) (message : String)
      (args : List PyArg)
  | closeCall (w : Writer)

/-- Whether an event is a printed line. -/
def Event.isLine : Event → Bool
  | .line _ => true
  | _ => false

/-- Printed lines as events. -/
def linesEv (ls : List Line) : List Event := ls.map Event.line

/-- The module-level mutable state: `error_occurred` (line 37),
`error_exit_code` (line 40) and the active `_writer` (line 635). -/
structure ModuleState where
  error_occurred : Bool
  error_exit_code : Int
  writer : Writer

def ModuleState.toGlobals (s : ModuleState) : Globals :=
  ⟨s.error_occurred, s.error_exit_code⟩

/-- How a facade call ends: normal return, process exit (`sys.exit`),
or a propagated exception. -/
inductive Term where
  | exit (code : Int)
  | exc (e : PyExc)

/-- The result of a facade operation: new module state, observable
events in order, and the optional termination. -/
structure Outcome where
  state : ModuleState
  events : List Event
  term : Option Term

/-- `_put(level, message, *args, **kwargs)` (lines 66-105) with the
module-internal `is_error` option: set `error_occurred` and call the
writer's `error_occurred()` hook first, then dispatch to the writer's
per-severity method.  The mirroring of the message to the `logging`
subsystem (the `log` option) is an external side effect and is not
modelled. -/
def _put (level : Level) (is_error : Bool) (message : String)
    (args : List PyArg) (s : ModuleState) : ModuleState × List Event :=
  let p : ModuleState × List Event :=
    if is_error then
      ({ s with error_occurred := true }, linesEv s.writer.errorOccurredHook)
    else (s, [])
  (p.1, p.2 ++ Event.emitCall p.1.writer level message args ::
    linesEv (p.1.writer.emit level message args))

/-- `debug(message, *args)` (lines 129-135). -/
def debug (message : String) (args : List PyArg) (s : ModuleState) : Outcome :=
  let p := _put .debug false message args s
  ⟨p.1, p.2, none⟩

/-- `info(message, *args)` (lines 138-144). -/
def info (message : String) (args : List PyArg) (s : ModuleState) : Outcome :=
  let p := _put .info false message args s
  ⟨p.1, p.2, none⟩

/-- `warning(message, *args)` (lines 147-153). -/
def warning (message : String) (args : List PyArg) (s : ModuleState) : Outcome :=
  let p := _put .warning false message args s
  ⟨p.1, p.2, none⟩

/-- `error(message, *args, ignore=False)` (lines 156-168): unless
`ignore`, the call is made with `is_error=True`. -/
def error (message : String) (args : List PyArg) (ignore : Bool)
    (s : ModuleState) : Outcome :=
  let p := _put .error (!ignore) message args s
  ⟨p.1, p.2, none⟩

/-- `exception(message, *args, ignore=False, raise_exception=None)`
(lines 171-199).  `raise_exception` is modelled for its `None` and
exception-instance forms; the callable and bare-`raise` forms depend on
ambient interpreter state outside the module and are not modelled. -/
def exception (message : String) (args : List PyArg) (ignore : Bool)
    (raise_exception : Option PyExc) (s : ModuleState) : Outcome :=
  let p := _put .exception (!ignore) message args s
  match raise_exception with
  | some e => ⟨p.1, p.2, some (.exc e)⟩
  | none => ⟨p.1, p.2, none⟩

/-- `close()` (lines 252-257): close the active writer. -/
def close (s : ModuleState) : ModuleState × List Event :=
  let r := s.writer.close s.toGlobals
  (⟨r.2.1.error_occurred, r.2.1.error_exit_code, r.1⟩,
   Event.closeCall s.writer :: linesEv r.2.2)

/-- `close_and_exit()` (lines 238-249): close the writer, then
`sys.exit` with `error_exit_code` when an error occurred, else 0. -/
def close_and_exit (s : ModuleState) : Outcome :=
  let p := close s
  ⟨p.1, p.2,
   some (.exit (if p.1.error_occurred then p.1.error_exit_code else 0))⟩

/-- `init(command, *args, **kwargs)` (lines 202-217): dispatch to
`init_<command>`; on `ValueError`, report via `exception(...)` naming
the writer class and the command, then `close_and_exit()`. -/
def init (command : String) (args : CommandArgs) (s : ModuleState) : Outcome :=
  match _dispatch s.writer "init" command args s.toGlobals with
  | .ok (w', g', ls) =>
      ⟨⟨g'.error_occurred, g'.error_exit_code, w'⟩, linesEv ls, none⟩
  | .error (.valueError _) =>
      let o1 := exception "The %s writer does not support the \"%s\" command"
        [.val (.pstr s.writer.className), .val (.pstr command)] false none s
      let o2 := close_and_exit o1.state
      ⟨o2.state, o1.events ++ o2.events, o2.term⟩
  | .error e => ⟨s, [], some (.exc e)⟩

/-- `result(command, *args, **kwargs)` (lines 220-235): dispatch to
`result_<command>`; on `ValueError`, report via `exception(...)` naming
the writer class and the command, then `close_and_exit()`. -/
def result (command : String) (args : CommandArgs) (s : ModuleState) : Outcome :=
  match _dispatch s.writer "result" command args s.toGlobals with
  | .ok (w', g', ls) =>
      ⟨⟨g'.error_occurred, g'.error_exit_code, w'⟩, linesEv ls, none⟩
  | .error (.valueError _) =>
      let o1 := exception "The %s writer does not support the \"%s\" command"
        [.val (.pstr s.writer.className), .val (.pstr command)] false none s
      let o2 := close_and_exit o1.state
      ⟨o2.state, o1.events ++ o2.events, o2.term⟩
  | .error e => ⟨s, [], some (.exc e)⟩

/-- The `new_writer` argument of `set_output_writer`: a symbolic name or
an actual writer object. -/
inductive NewWriter where
  | name (n : String)
  | obj (w : Writer)

/-- The registry of available writers (lines 624-629): only `console`;
`nagios` is intentionally not registered. -/
def AVAILABLE_WRITERS (n : String) : Option (Bool → Bool → Writer) :=
  if n == "console" then some (fun d q => .console (ConsoleOutputWriter.new d q))
  else none

/-- The default writer name (line 632). -/
def DEFAULT_WRITER : String := "console"

/-- The writer installed by `set_output_writer` (lines 275-278): a
registered name is instantiated with the constructor arguments;
anything else is installed as-is.  A name outside the registry is thus
installed as the bare string (a latent misconfiguration in the source);
it is modelled as an object with no attributes. -/
def resolveWriter (nw : NewWriter) (dbg quiet : Bool) : Writer :=
  match nw with
  | .obj w => w
  | .name n =>
      match AVAILABLE_WRITERS n with
      | some ctor => ctor dbg quiet
      | none =>
          .custom ⟨n, fun _ _ _ => [], [], fun _ => none, []⟩

/-- `set_output_writer(new_writer, *args, **kwargs)` (lines 260-278):
close the current writer, then install the new one.  The constructor
arguments `args`/`kwargs` are those of `ConsoleOutputWriter.__init__`
(`debug`, `quiet`), the only registered constructor. -/
def set_output_writer (nw : NewWriter) (dbg quiet : Bool) (s : ModuleState) :
    ModuleState × List Event :=
  let r := s.writer.close s.toGlobals
  (⟨r.2.1.error_occurred, r.2.1.error_exit_code, resolveWriter nw dbg quiet⟩,
   Event.closeCall s.writer :: linesEv r.2.2)

/-- The module state at load time (lines 37, 40, 635): no error, exit
code 1, a default-constructed `ConsoleOutputWriter`. -/
def initialState : ModuleState :=
  ⟨false, 1, .console (ConsoleOutputWriter.new false false)⟩

/-- One invocation of a facade operation (and through it of the active
writer's methods), as performed by command-layer code during a run. -/
inductive FacadeOp where
  | debugOp (m : String) (a : List PyArg)
  | infoOp (m : String) (a : List PyArg)
  | warningOp (m : String) (a : List PyArg)
  | errorOp (m : String) (a : List PyArg) (ignore : Bool)
  | exceptionOp (m : String) (a : List PyArg) (ignore : Bool)
      (re : Option PyExc)
  | initOp (command : String) (a : CommandArgs)
  | resultOp (command : String) (a : CommandArgs)
  | closeOp
  | closeAndExitOp
  | setWriterOp (nw : NewWriter) (dbg quiet : Bool)

/-- Run one facade operation on the module state. -/
def runOp : FacadeOp → ModuleState → Outcome
  | .debugOp m a, s => debug m a s
  | .infoOp m a, s => info m a s
  | .warningOp m a, s => warning m a s
  | .errorOp m a ig, s => error m a ig s
  | .exceptionOp m a ig re, s => exception m a ig re s
  | .initOp c a, s => init c a s
  | .resultOp c a, s => result c a s
  | .closeOp, s =>
      let p := close s
      ⟨p.1, p.2, none⟩
  | .closeAndExitOp, s => close_and_exit s
  | .setWriterOp nw d q, s =>
      let p := set_output_writer nw d q s
      ⟨p.1, p.2, none⟩

/-- Run a sequence of facade operations; a terminating operation
(process exit or propagated exception) stops the run. -/
def runSeq : List FacadeOp → ModuleState → ModuleState
  | [], s => s
  | op :: rest, s =>
      match runOp op s with
      | ⟨s1, _, some _⟩ => s1
      | ⟨s1, _, none⟩ => runSeq rest s1

/-! ## Helper lemmas -/

/-- Closing a writer never changes `error_occurred` (the Nagios close
only touches `error_exit_code`). -/
theorem close_keeps_error_occurred (w : Writer) (g : Globals) :
    (w.close g).2.1.error_occurred = g.error_occurred := by
  cases w <;> simp only [Writer.close, NagiosOutputWriter.close]
  split <;> rfl

/-- Events built from printed lines are line events. -/
theorem linesEv_all_isLine (ls : List Line) :
    (linesEv ls).all Event.isLine = true := by
  simp only [linesEv, List.all_eq_true]
  intro e he
  obtain ⟨l, -, rfl⟩ := List.mem_map.mp he
  rfl

/-- The `init_check` handler never clears `error_occurred`. -/
theorem h_init_check_mono (nag : Bool) (w : ConsoleOutputWriter) (a : CommandArgs)
    (g : Globals) (r : Writer × Globals × List Line)
    (hok : h_init_check nag w a g = .ok r) (hg : g.error_occurred = true) :
    r.2.1.error_occurred = true := by
  cases a <;>
    first
    | exact Except.noConfusion hok
    | · injection hok with hok
        subst hok
        exact hg

/-- The `result_check` handler never clears `error_occurred`. -/
theorem h_result_check_mono (nag : Bool) (w : ConsoleOutputWriter) (a : CommandArgs)
    (g : Globals) (r : Writer × Globals × List Line)
    (hok : h_result_check nag w a g = .ok r) (hg : g.error_occurred = true) :
    r.2.1.error_occurred = true := by
  cases a <;>
    first
    | exact Except.noConfusion hok
    | · injection hok with hok
        subst hok
        rename_i sn c st hi
        cases st with
        | false => rfl
        | true => exact hg

/-- The `init_list_backup` handler never clears `error_occurred`. -/
theorem h_init_list_backup_mono (nag : Bool) (w : ConsoleOutputWriter) (a : CommandArgs)
    (g : Globals) (r : Writer × Globals × List Line)
    (hok : h_init_list_backup nag w a g = .ok r) (hg : g.error_occurred = true) :
    r.2.1.error_occurred = true := by
  cases a <;>
    first
    | exact Except.noConfusion hok
    | · injection hok with hok
        subst hok
        exact hg

/-- The `result_backup` handler never clears `error_occurred`. -/
theorem h_result_backup_mono (nag : Bool) (w : ConsoleOutputWriter) (a : CommandArgs)
    (g : Globals) (r : Writer × Globals × List Line)
    (hok : h_result_backup nag w a g = .ok r) (hg : g.error_occurred = true) :
    r.2.1.error_occurred = true := by
  cases a <;>
    first
    | exact Except.noConfusion hok
    | · injection hok with hok
        subst hok
        exact hg

/-- The `result_list_backup` handler never clears `error_occurred`. -/
theorem h_result_list_backup_mono (nag : Bool) (w : ConsoleOutputWriter) (a : CommandArgs)
    (g : Globals) (r : Writer × Globals × List Line)
    (hok : h_result_list_backup nag w a g = .ok r) (hg : g.error_occurred = true) :
    r.2.1.error_occurred = true := by
  cases a <;>
    first
    | exact Except.noConfusion hok
    | · injection hok with hok
        subst hok
        cases hmin : w.minimal <;>
          simp [ConsoleOutputWriter.result_list_backup, hmin, hg]

/-- The `result_show_backup` handler never clears `error_occurred`. -/
theorem h_result_show_backup_mono (nag : Bool) (w : ConsoleOutputWriter) (a : CommandArgs)
    (g : Globals) (r : Writer × Globals × List Line)
    (hok : h_result_show_backup nag w a g = .ok r) (hg : g.error_occurred = true) :
    r.2.1.error_occurred = true := by
  cases a <;>
    first
    | exact Except.noConfusion hok
    | · injection hok with hok
        subst hok
        exact hg

/-- The `init_status` handler never clears `error_occurred`. -/
theorem h_init_status_mono (nag : Bool) (w : ConsoleOutputWriter) (a : CommandArgs)
    (g : Globals) (r : Writer × Globals × List Line)
    (hok : h_init_status nag w a g = .ok r) (hg : g.error_occurred = true) :
    r.2.1.error_occurred = true := by
  cases a <;>
    first
    | exact Except.noConfusion hok
    | · injection hok with hok
        subst hok
        exact hg

/-- The `result_status` handler never clears `error_occurred`. -/
theorem h_result_status_mono (nag : Bool) (w : ConsoleOutputWriter) (a : CommandArgs)
    (g : Globals) (r : Writer × Globals × List Line)
    (hok : h_result_status nag w a g = .ok r) (hg : g.error_occurred = true) :
    r.2.1.error_occurred = true := by
  cases a <;>
    first
    | exact Except.noConfusion hok
    | · injection hok with hok
        subst hok
        exact hg

/-- The `init_list_server` handler never clears `error_occurred`. -/
theorem h_init_list_server_mono (nag : Bool) (w : ConsoleOutputWriter) (a : CommandArgs)
    (g : Globals) (r : Writer × Globals × List Line)
    (hok : h_init_list_server nag w a g = .ok r) (hg : g.error_occurred = true) :
    r.2.1.error_occurred = true := by
  cases a <;>
    first
    | exact Except.noConfusion hok
    | · injection hok with hok
        subst hok
        exact hg

/-- The `result_list_server` handler never clears `error_occurred`. -/
theorem h_result_list_server_mono (nag : Bool) (w : ConsoleOutputWriter) (a : CommandArgs)
    (g : Globals) (r : Writer × Globals × List Line)
    (hok : h_result_list_server nag w a g = .ok r) (hg : g.error_occurred = true) :
    r.2.1.error_occurred = true := by
  cases a <;>
    first
    | exact Except.noConfusion hok
    | · injection hok with hok
        subst hok
        rename_i sn de
        cases hmin : (w.minimal || !optTruthy de) <;>
          simp [ConsoleOutputWriter.result_list_server, hmin, hg]

/-- The `init_show_server` handler never clears `error_occurred`. -/
theorem h_init_show_server_mono (nag : Bool) (w : ConsoleOutputWriter) (a : CommandArgs)
    (g : Globals) (r : Writer × Globals × List Line)
    (hok : h_init_show_server nag w a g = .ok r) (hg : g.error_occurred = true) :
    r.2.1.error_occurred = true := by
  cases a <;>
    first
    | exact Except.noConfusion hok
    | · injection hok with hok
        subst hok
        exact hg

/-- The `result_show_server` handler never clears `error_occurred`. -/
theorem h_result_show_server_mono (nag : Bool) (w : ConsoleOutputWriter) (a : CommandArgs)
    (g : Globals) (r : Writer × Globals × List Line)
    (hok : h_result_show_server nag w a g = .ok r) (hg : g.error_occurred = true) :
    r.2.1.error_occurred = true := by
  cases a <;>
    first
    | exact Except.noConfusion hok
    | · injection hok with hok
        subst hok
        exact hg

/-- Every method of the two writer classes can only leave
`error_occurred` unchanged or set it (only `_record_check` touches it). -/
theorem classGetattr_ok_error_mono (nag : Bool) (w : ConsoleOutputWriter)
    (name : String) (h : Handler) (a : CommandArgs) (g : Globals)
    (r : Writer × Globals × List Line)
    (hm : classGetattr nag w name = some h) (hok : h a g = .ok r)
    (hg : g.error_occurred = true) : r.2.1.error_occurred = true := by
  simp only [classGetattr] at hm
  by_cases e1 : (name == "init_check") = true
  · rw [if_pos e1] at hm
    injection hm with hh
    subst hh
    exact h_init_check_mono nag w a g r hok hg
  rw [if_neg e1] at hm
  by_cases e2 : (name == "result_check") = true
  · rw [if_pos e2] at hm
    injection hm with hh
    subst hh
    exact h_result_check_mono nag w a g r hok hg
  rw [if_neg e2] at hm
  by_cases e3 : (name == "init_list_backup") = true
  · rw [if_pos e3] at hm
    injection hm with hh
    subst hh
    exact h_init_list_backup_mono nag w a g r hok hg
  rw [if_neg e3] at hm
  by_cases e4 : (name == "result_backup") = true
  · rw [if_pos e4] at hm
    injection hm with hh
    subst hh
    exact h_result_backup_mono nag w a g r hok hg
  rw [if_neg e4] at hm
  by_cases e5 : (name == "result_list_backup") = true
  · rw [if_pos e5] at hm
    injection hm with hh
    subst hh
    exact h_result_list_backup_mono nag w a g r hok hg
  rw [if_neg e5] at hm
  by_cases e6 : (name == "result_show_backup") = true
  · rw [if_pos e6] at hm
    injection hm with hh
    subst hh
    exact h_result_show_backup_mono nag w a g r hok hg
  rw [if_neg e6] at hm
  by_cases e7 : (name == "init_status") = true
  · rw [if_pos e7] at hm
    injection hm with hh
    subst hh
    exact h_init_status_mono nag w a g r hok hg
  rw [if_neg e7] at hm
  by_cases e8 : (name == "result_status") = true
  · rw [if_pos e8] at hm
    injection hm with hh
    subst hh
    exact h_result_status_mono nag w a g r hok hg
  rw [if_neg e8] at hm
  by_cases e9 : (name == "init_list_server") = true
  · rw [if_pos e9] at hm
    injection hm with hh
    subst hh
    exact h_init_list_server_mono nag w a g r hok hg
  rw [if_neg e9] at hm
  by_cases e10 : (name == "result_list_server") = true
  · rw [if_pos e10] at hm
    injection hm with hh
    subst hh
    exact h_result_list_server_mono nag w a g r hok hg
  rw [if_neg e10] at hm
  by_cases e11 : (name == "init_show_server") = true
  · rw [if_pos e11] at hm
    injection hm with hh
    subst hh
    exact h_init_show_server_mono nag w a g r hok hg
  rw [if_neg e11] at hm
  by_cases e12 : (name == "result_show_server") = true
  · rw [if_pos e12] at hm
    injection hm with hh
    subst hh
    exact h_result_show_server_mono nag w a g r hok hg
  rw [if_neg e12] at hm
  exact Option.noConfusion hm

/-- Method lookup on any writer yields handlers that never clear
`error_occurred` (an object outside the module's classes cannot even
reach the globals). -/
theorem getattr_ok_error_mono (wr : Writer) (name : String) (h : Handler)
    (a : CommandArgs) (g : Globals) (r : Writer × Globals × List Line)
    (hm : wr.getattr name = some h) (hok : h a g = .ok r)
    (hg : g.error_occurred = true) : r.2.1.error_occurred = true := by
  cases wr with
  | console cw => exact classGetattr_ok_error_mono false cw name h a g r hm hok hg
  | nagios cw => exact classGetattr_ok_error_mono true cw name h a g r hm hok hg
  | custom o =>
      simp only [Writer.getattr] at hm
      cases ho : o.methods name with
      | none => rw [ho] at hm; exact Option.noConfusion hm
      | some f =>
          rw [ho] at hm
          injection hm with hh
          subst hh
          have hok2 : Except.map (fun ls => (Writer.custom o, g, ls)) (f a) =
              .ok r := hok
          cases hfa : f a with
          | ok ls =>
              rw [hfa] at hok2
              simp only [Except.map] at hok2
              injection hok2 with hok2
              subst hok2
              exact hg
          | error e =>
              rw [hfa] at hok2
              exact Except.noConfusion hok2

/-- A successful `_dispatch` never clears `error_occurred`. -/
theorem dispatch_ok_error_mono (wr : Writer) (pre name : String)
    (args : CommandArgs) (g : Globals) (r : Writer × Globals × List Line)
    (hok : _dispatch wr pre name args g = .ok r)
    (hg : g.error_occurred = true) : r.2.1.error_occurred = true := by
  simp only [_dispatch] at hok
  cases hm : wr.getattr (pre ++ "_" ++ name) with
  | none => rw [hm] at hok; exact Except.noConfusion hok
  | some h =>
      rw [hm] at hok
      exact getattr_ok_error_mono wr _ h args g r hm hok hg

/-- No single facade operation clears a set `error_occurred`. -/
theorem runOp_error_mono (op : FacadeOp) (s : ModuleState)
    (hg : s.error_occurred = true) :
    (runOp op s).state.error_occurred = true := by
  cases op with
  | debugOp m a => simpa [runOp, debug, _put] using hg
  | infoOp m a => simpa [runOp, info, _put] using hg
  | warningOp m a => simpa [runOp, warning, _put] using hg
  | errorOp m a ig =>
      cases ig <;> simp_all [runOp, error, _put]
  | exceptionOp m a ig re =>
      cases re <;> cases ig <;> simp_all [runOp, exception, _put]
  | closeOp =>
      simpa [runOp, close, close_keeps_error_occurred,
        ModuleState.toGlobals] using hg
  | closeAndExitOp =>
      simpa [runOp, close_and_exit, close, close_keeps_error_occurred,
        ModuleState.toGlobals] using hg
  | setWriterOp nw d q =>
      simpa [runOp, set_output_writer, close_keeps_error_occurred,
        ModuleState.toGlobals] using hg
  | initOp c a =>
      simp only [runOp, init]
      cases hd : _dispatch s.writer "init" c a s.toGlobals with
      | ok r =>
          have := dispatch_ok_error_mono s.writer "init" c a s.toGlobals r hd
            (by simpa [ModuleState.toGlobals] using hg)
          simpa using this
      | error e =>
          cases e with
          | valueError msg =>
              simp [exception, _put, close_and_exit, close,
                close_keeps_error_occurred, ModuleState.toGlobals]
          | other msg => simpa using hg
  | resultOp c a =>
      simp only [runOp, result]
      cases hd : _dispatch s.writer "result" c a s.toGlobals with
      | ok r =>
          have := dispatch_ok_error_mono s.writer "result" c a s.toGlobals r hd
            (by simpa [ModuleState.toGlobals] using hg)
          simpa using this
      | error e =>
          cases e with
          | valueError msg =>
              simp [exception, _put, close_and_exit, close,
                close_keeps_error_occurred, ModuleState.toGlobals]
          | other msg => simpa using hg

/-- Interpolating `"    Retention Policy: %s"` with one string. -/
theorem fmt_retention (v : String) :
    _format_message "    Retention Policy: %s" [.val (.pstr v)] =
      "    Retention Policy: " ++ v := by
  have h : ("    Retention Policy: %s" : String).data =
      [' ', ' ', ' ', ' ', 'R', 'e', 't', 'e', 'n', 't', 'i', 'o', 'n',
       ' ', 'P', 'o', 'l', 'i', 'c', 'y', ':', ' ', '%', 's'] := rfl
  apply String.ext
  simp [_format_message, pymod_tuple, h, interpPos, PyArg.display,
    PyVal.toDisplay]

/-- Interpolating `"    Previous Backup : %s"` with one string. -/
theorem fmt_previous (v : String) :
    _format_message "    Previous Backup : %s" [.val (.pstr v)] =
      "    Previous Backup : " ++ v := by
  have h : ("    Previous Backup : %s" : String).data =
      [' ', ' ', ' ', ' ', 'P', 'r', 'e', 'v', 'i', 'o', 'u', 's', ' ',
       'B', 'a', 'c', 'k', 'u', 'p', ' ', ':', ' ', '%', 's'] := rfl
  apply String.ext
  simp [_format_message, pymod_tuple, h, interpPos, PyArg.display,
    PyVal.toDisplay]

/-- Interpolating `"    Next Backup     : %s"` with one string. -/
theorem fmt_next (v : String) :
    _format_message "    Next Backup     : %s" [.val (.pstr v)] =
      "    Next Backup     : " ++ v := by
  have h : ("    Next Backup     : %s" : String).data =
      [' ', ' ', ' ', ' ', 'N', 'e', 'x', 't', ' ', 'B', 'a', 'c', 'k',
       'u', 'p', ' ', ' ', ' ', ' ', ' ', ':', ' ', '%', 's'] := rfl
  apply String.ext
  simp [_format_message, pymod_tuple, h, interpPos, PyArg.display,
    PyVal.toDisplay]

/-- The server list accumulated by the Nagios close loop stays
duplicate-free. -/
theorem nagiosScan_servers_nodup (l : List CheckResult) :
    ∀ servers issues : List String, servers.Nodup →
      (nagiosScan l servers issues).1.Nodup := by
  induction l with
  | nil => intro servers issues hs; exact hs
  | cons item rest ih =>
      intro servers issues hs
      simp only [nagiosScan]
      apply ih
      split
      · exact hs
      · next hmem =>
          simp [List.nodup_append, hs, hmem]

/-- The issue list accumulated by the Nagios close loop stays
duplicate-free. -/
theorem nagiosScan_issues_nodup (l : List CheckResult) :
    ∀ servers issues : List String, issues.Nodup →
      (nagiosScan l servers issues).2.Nodup := by
  induction l with
  | nil => intro servers issues hi; exact hi
  | cons item rest ih =>
      intro servers issues hi
      simp only [nagiosScan]
      apply ih
      split
      · next hc => simp [List.nodup_append, hi, hc.2]
      · exact hi

/-- Membership in the accumulated server list: the starting accumulator
plus every server name occurring in the scanned records. -/
theorem nagiosScan_servers_mem (l : List CheckResult) :
    ∀ (servers issues : List String) (n : String),
      n ∈ (nagiosScan l servers issues).1 ↔
        n ∈ servers ∨ n ∈ l.map CheckResult.server_name := by
  induction l with
  | nil => intro servers issues n; simp [nagiosScan]
  | cons item rest ih =>
      intro servers issues n
      simp only [nagiosScan, List.map_cons, List.mem_cons]
      rw [ih]
      split
      · next hmem =>
          constructor
          · rintro (h | h)
            · exact Or.inl h
            · exact Or.inr (Or.inr h)
          · rintro (h | rfl | h)
            · exact Or.inl h
            · exact Or.inl hmem
            · exact Or.inr h
      · simp only [List.mem_append, List.mem_singleton]
        tauto

/-- Membership in the accumulated issue list: the starting accumulator
plus every server name with at least one failed check among the scanned
records. -/
theorem nagiosScan_issues_mem (l : List CheckResult) :
    ∀ (servers issues : List String) (n : String),
      n ∈ (nagiosScan l servers issues).2 ↔
        n ∈ issues ∨ ∃ r ∈ l, r.server_name = n ∧ r.status = false := by
  induction l with
  | nil => intro servers issues n; simp [nagiosScan]
  | cons item rest ih =>
      intro servers issues n
      simp only [nagiosScan, List.mem_cons]
      rw [ih]
      split
      · next hc =>
          simp only [List.mem_append, List.mem_singleton]
          constructor
          · rintro ((h | rfl) | ⟨r, hr, rfl, hst⟩)
            · exact Or.inl h
            · exact Or.inr ⟨item, Or.inl rfl, rfl, hc.1⟩
            · exact Or.inr ⟨r, Or.inr hr, rfl, hst⟩
          · rintro (h | ⟨r, hr, rfl, hst⟩)
            · exact Or.inl (Or.inl h)
            · rcases hr with rfl | hr
              · exact Or.inl (Or.inr rfl)
              · exact Or.inr ⟨r, hr, rfl, hst⟩
      · next hc =>
          constructor
          · rintro (h | ⟨r, hr, rfl, hst⟩)
            · exact Or.inl h
            · exact Or.inr ⟨r, Or.inr hr, rfl, hst⟩
          · rintro (h | ⟨r, hr, rfl, hst⟩)
            · exact Or.inl h
            · rcases hr with rfl | hr
              · left
                by_contra hn
                exact hc ⟨hst, hn⟩
              · exact Or.inr ⟨r, hr, rfl, hst⟩

/-! ## Claims -/

/-- C1: a facade `error` or `exception` call sets the process-wide
`error_occurred` flag exactly when `ignore` is false (its default); with
`ignore=True` the module state is left entirely unchanged. -/
theorem error_exception_ignore_spec (m : String) (a : List PyArg)
    (re : Option PyExc) (s : ModuleState) :
    ((error m a false s).state.error_occurred = true) ∧
    ((error m a true s).state = s) ∧
    ((exception m a false re s).state.error_occurred = true) ∧
    ((exception m a true re s).state = s) := by
  refine ⟨rfl, rfl, ?_, ?_⟩ <;> cases re <;> rfl

/-- C2: `NagiosOutputWriter.close` computes the duplicate-free list of
server names occurring in the accumulated check results and the
duplicate-free list of server names with at least one failed check; when
the latter is non-empty it prints the single CRITICAL line with the two
counts and escalates `error_exit_code` to 2, otherwise it prints the OK
line and leaves the globals unchanged.  The final conjunct is the spec
scenario: checks true/false/true for "pg1" and true for "pg2" yield
`BARMAN CRITICAL - 1 server out of 2 has issues` and exit code 2. -/
theorem nagios_close_spec (w : ConsoleOutputWriter) (g : Globals) :
    ((nagiosScan w.result_check_list [] []).1.Nodup) ∧
    (∀ n, n ∈ (nagiosScan w.result_check_list [] []).1 ↔
        n ∈ w.result_check_list.map CheckResult.server_name) ∧
    ((nagiosScan w.result_check_list [] []).2.Nodup) ∧
    (∀ n, n ∈ (nagiosScan w.result_check_list [] []).2 ↔
        ∃ r ∈ w.result_check_list, r.server_name = n ∧ r.status = false) ∧
    (NagiosOutputWriter.close w g =
      if 0 < (nagiosScan w.result_check_list [] []).2.length then
        ({ g with error_exit_code := 2 },
         [⟨.stdout, "BARMAN CRITICAL - " ++
            toString (nagiosScan w.result_check_list [] []).2.length ++
            " server out of " ++
            toString (nagiosScan w.result_check_list [] []).1.length ++
            " has issues"⟩])
      else (g, [⟨.stdout, "BARMAN OK - Ready to serve the Espresso backup"⟩])) ∧
    (NagiosOutputWriter.close
        ⟨false, false,
         [⟨"pg1", "c1", true, none⟩, ⟨"pg1", "c2", false, none⟩,
          ⟨"pg1", "c3", true, none⟩, ⟨"pg2", "c1", true, none⟩],
         [], false⟩ ⟨false, 1⟩ =
      (⟨false, 2⟩,
       [⟨.stdout, "BARMAN CRITICAL - 1 server out of 2 has issues"⟩])) := by
  refine ⟨nagiosScan_servers_nodup _ _ _ List.nodup_nil, ?_,
    nagiosScan_issues_nodup _ _ _ List.nodup_nil, ?_, rfl, by decide⟩
  · intro n
    rw [nagiosScan_servers_mem]
    simp
  · intro n
    rw [nagiosScan_issues_mem]
    simp

/-- C3: `close_and_exit()` first calls `close()` on the active writer
(the event trace starts with that close and is the trace of `close`),
and then exits with `error_exit_code` when the global error state is
set after closing, else with 0. -/
theorem close_and_exit_spec (s : ModuleState) :
    ((close_and_exit s).state = (close s).1) ∧
    ((close_and_exit s).events = (close s).2) ∧
    ((close_and_exit s).events =
      Event.closeCall s.writer :: linesEv (s.writer.close s.toGlobals).2.2) ∧
    ((close_and_exit s).term = some (Term.exit
      (if (close s).1.error_occurred then (close s).1.error_exit_code
       else 0))) :=
  ⟨rfl, rfl, rfl, rfl⟩

/-- C6: `result_check` always appends the corresponding `CheckResult`
to `result_check_list`; with a failing status it sets the global
`error_occurred`, with a succeeding status it leaves the globals
untouched. -/
theorem result_check_spec (nag : Bool) (w : ConsoleOutputWriter)
    (sn c : String) (h : Option String) (g : Globals) :
    ((ConsoleOutputWriter.result_check nag w sn c false h g).1.result_check_list
        = w.result_check_list ++ [⟨sn, c, false, h⟩]) ∧
    ((ConsoleOutputWriter.result_check nag w sn c false h g).2.1
        = { g with error_occurred := true }) ∧
    ((ConsoleOutputWriter.result_check nag w sn c true h g).1.result_check_list
        = w.result_check_list ++ [⟨sn, c, true, h⟩]) ∧
    ((ConsoleOutputWriter.result_check nag w sn c true h g).2.1 = g) :=
  ⟨rfl, rfl, rfl, rfl⟩

/-- C4: when the active writer has no callable `init_<command>`
(respectively `result_<command>`) method, the facade's `init`
(respectively `result`) emits an exception-severity message through the
writer, passing the writer class name and the command as the template
arguments, sets the global error state, invokes `close()` and terminates
with the (post-close) `error_exit_code` — the lookup failure is not
propagated. -/
theorem unsupported_command_spec (cmd : String) (args : CommandArgs)
    (s : ModuleState) :
    (s.writer.getattr ("init_" ++ cmd) = none →
      (Event.emitCall s.writer .exception
        "The %s writer does not support the \"%s\" command"
        [.val (.pstr s.writer.className), .val (.pstr cmd)]
          ∈ (init cmd args s).events) ∧
      ((init cmd args s).state.error_occurred = true) ∧
      (Event.closeCall s.writer ∈ (init cmd args s).events) ∧
      ((init cmd args s).term =
        some (Term.exit (init cmd args s).state.error_exit_code))) ∧
    (s.writer.getattr ("result_" ++ cmd) = none →
      (Event.emitCall s.writer .exception
        "The %s writer does not support the \"%s\" command"
        [.val (.pstr s.writer.className), .val (.pstr cmd)]
          ∈ (result cmd args s).events) ∧
      ((result cmd args s).state.error_occurred = true) ∧
      (Event.closeCall s.writer ∈ (result cmd args s).events) ∧
      ((result cmd args s).term =
        some (Term.exit (result cmd args s).state.error_exit_code))) := by
  have e1 : ("init" ++ "_" : String) = "init_" := rfl
  have e2 : ("result" ++ "_" : String) = "result_" := rfl
  constructor
  · intro h
    simp [init, _dispatch, e1, h, exception, _put, close_and_exit, close,
      linesEv, ModuleState.toGlobals, close_keeps_error_occurred]
  · intro h
    simp [result, _dispatch, e2, h, exception, _put, close_and_exit, close,
      linesEv, ModuleState.toGlobals, close_keeps_error_occurred]

/-- Witness for C4: on the initially installed console writer,
`init("nosuchcommand", ...)` and `result("nosuchcommand", ...)` take the
reporting-and-terminating path. -/
theorem unsupported_command_spec_witness :
    ((Event.emitCall initialState.writer .exception
        "The %s writer does not support the \"%s\" command"
        [.val (.pstr initialState.writer.className),
         .val (.pstr "nosuchcommand")]
          ∈ (init "nosuchcommand" (.serverName "main") initialState).events) ∧
      ((init "nosuchcommand" (.serverName "main") initialState).state.error_occurred = true) ∧
      (Event.closeCall initialState.writer
          ∈ (init "nosuchcommand" (.serverName "main") initialState).events) ∧
      ((init "nosuchcommand" (.serverName "main") initialState).term =
        some (Term.exit
          (init "nosuchcommand" (.serverName "main") initialState).state.error_exit_code))) ∧
    ((Event.emitCall initialState.writer .exception
        "The %s writer does not support the \"%s\" command"
        [.val (.pstr initialState.writer.className),
         .val (.pstr "nosuchcommand")]
          ∈ (result "nosuchcommand" (.serverName "main") initialState).events) ∧
      ((result "nosuchcommand" (.serverName "main") initialState).state.error_occurred = true) ∧
      (Event.closeCall initialState.writer
          ∈ (result "nosuchcommand" (.serverName "main") initialState).events) ∧
      ((result "nosuchcommand" (.serverName "main") initialState).term =
        some (Term.exit
          (result "nosuchcommand" (.serverName "main") initialState).state.error_exit_code))) := by
  have h := unsupported_command_spec "nosuchcommand" (.serverName "main")
    initialState
  exact ⟨h.1 rfl, h.2 rfl⟩

/-- C10: a `ValueError` raised by an existing `init_<command>`/
`result_<command>` handler is caught by the facade's `init`/`result`
exactly like a missing method: the unsupported-command report is emitted
with the writer class name and the command, the global error state is
set, the writer is closed and the process exits — the handler's error is
not propagated. -/
theorem handler_valueerror_spec (cmd : String) (args : CommandArgs)
    (o : CustomWriter) (eo : Bool) (ec : Int) :
    (∀ (f : CommandArgs → Except PyExc (List Line)) (msg : String),
      o.methods ("init_" ++ cmd) = some f →
      f args = .error (.valueError msg) →
      (Event.emitCall (.custom o) .exception
        "The %s writer does not support the \"%s\" command"
        [.val (.pstr o.className), .val (.pstr cmd)]
          ∈ (init cmd args ⟨eo, ec, .custom o⟩).events) ∧
      ((init cmd args ⟨eo, ec, .custom o⟩).state.error_occurred = true) ∧
      ((init cmd args ⟨eo, ec, .custom o⟩).term =
        some (Term.exit
          (init cmd args ⟨eo, ec, .custom o⟩).state.error_exit_code))) ∧
    (∀ (f : CommandArgs → Except PyExc (List Line)) (msg : String),
      o.methods ("result_" ++ cmd) = some f →
      f args = .error (.valueError msg) →
      (Event.emitCall (.custom o) .exception
        "The %s writer does not support the \"%s\" command"
        [.val (.pstr o.className), .val (.pstr cmd)]
          ∈ (result cmd args ⟨eo, ec, .custom o⟩).events) ∧
      ((result cmd args ⟨eo, ec, .custom o⟩).state.error_occurred = true) ∧
      ((result cmd args ⟨eo, ec, .custom o⟩).term =
        some (Term.exit
          (result cmd args ⟨eo, ec, .custom o⟩).state.error_exit_code))) := by
  have e1 : ("init" ++ "_" : String) = "init_" := rfl
  have e2 : ("result" ++ "_" : String) = "result_" := rfl
  constructor
  · intro f msg hm hf
    simp [init, _dispatch, Writer.getattr, e1, hm, hf, Except.map,
      exception, _put, close_and_exit, close, linesEv, Writer.className,
      ModuleState.toGlobals, close_keeps_error_occurred]
  · intro f msg hm hf
    simp [result, _dispatch, Writer.getattr, e2, hm, hf, Except.map,
      exception, _put, close_and_exit, close, linesEv, Writer.className,
      ModuleState.toGlobals, close_keeps_error_occurred]

/-- An object whose `result_check` method raises `ValueError`. -/
def raisingWriter : CustomWriter :=
  ⟨"RaisingWriter", fun _ _ _ => [], [],
   fun name =>
     if name == "result_check" then
       some (fun _ => .error (.valueError "boom"))
     else none,
   []⟩

/-- Witness for C10: a writer whose `result_check` raises `ValueError`
sends `result("check", ...)` down the reporting-and-terminating path. -/
theorem handler_valueerror_spec_witness :
    (Event.emitCall (.custom raisingWriter) .exception
      "The %s writer does not support the \"%s\" command"
      [.val (.pstr raisingWriter.className), .val (.pstr "check")]
        ∈ (result "check" (.check "pg1" "c" true none)
            ⟨false, 1, .custom raisingWriter⟩).events) ∧
    ((result "check" (.check "pg1" "c" true none)
        ⟨false, 1, .custom raisingWriter⟩).state.error_occurred = true) ∧
    ((result "check" (.check "pg1" "c" true none)
        ⟨false, 1, .custom raisingWriter⟩).term =
      some (Term.exit
        (result "check" (.check "pg1" "c" true none)
          ⟨false, 1, .custom raisingWriter⟩).state.error_exit_code)) :=
  (handler_valueerror_spec "check" (.check "pg1" "c" true none)
    raisingWriter false 1).2
    (fun _ => .error (.valueError "boom")) "boom" rfl rfl

/-- C9: for a completed backup, `result_show_backup` on a (non-quiet)
console writer prints the retention-policy status as the stored value,
falling back to `not enforced` when it is absent or empty; it prints the
previous/next backup identifiers as `not available` when the key is
missing from the input mapping, but as the explicit oldest/latest
sentinel when the key is present with an empty (or `None`) value. -/
theorem show_backup_defaults (w : ConsoleOutputWriter) (b : BackupExtInfo)
    (g : Globals) (hq : w._quiet = false) (hs : b.status = BackupInfo.DONE) :
    ((⟨.stdout, "    Retention Policy: " ++
        (match b.retention_policy_status with
         | none => "not enforced"
         | some s => if s = "" then "not enforced" else s)⟩ : Line)
      ∈ (ConsoleOutputWriter.result_show_backup false w b g).2.2) ∧
    ((⟨.stdout, "    Previous Backup : " ++
        (match b.previous_backup_id with
         | none => "not available"
         | some none => "- (this is the oldest base backup)"
         | some (some s) =>
             if s = "" then "- (this is the oldest base backup)"
             else s)⟩ : Line)
      ∈ (ConsoleOutputWriter.result_show_backup false w b g).2.2) ∧
    ((⟨.stdout, "    Next Backup     : " ++
        (match b.next_backup_id with
         | none => "not available"
         | some none => "- (this is the latest base backup)"
         | some (some s) =>
             if s = "" then "- (this is the latest base backup)"
             else s)⟩ : Line)
      ∈ (ConsoleOutputWriter.result_show_backup false w b g).2.2) := by
  have hr : (if optTruthy b.retention_policy_status then
        b.retention_policy_status.getD "" else "not enforced") =
      (match b.retention_policy_status with
       | none => "not enforced"
       | some s => if s = "" then "not enforced" else s) := by
    cases b.retention_policy_status with
    | none => rfl
    | some s =>
        by_cases h0 : s = "" <;> simp [optTruthy, h0]
  have hp : (match b.previous_backup_id with
       | none => "not available"
       | some v =>
           if optTruthy v then v.getD ""
           else "- (this is the oldest base backup)") =
      (match b.previous_backup_id with
       | none => "not available"
       | some none => "- (this is the oldest base backup)"
       | some (some s) =>
           if s = "" then "- (this is the oldest base backup)" else s) := by
    rcases b.previous_backup_id with - | (- | s)
    · rfl
    · rfl
    · by_cases h0 : s = "" <;> simp [optTruthy, h0]
  have hn : (match b.next_backup_id with
       | none => "not available"
       | some v =>
           if optTruthy v then v.getD ""
           else "- (this is the latest base backup)") =
      (match b.next_backup_id with
       | none => "not available"
       | some none => "- (this is the latest base backup)"
       | some (some s) =>
           if s = "" then "- (this is the latest base backup)" else s) := by
    rcases b.next_backup_id with - | (- | s)
    · rfl
    · rfl
    · by_cases h0 : s = "" <;> simp [optTruthy, h0]
  refine ⟨?_, ?_, ?_⟩ <;>
    simp [ConsoleOutputWriter.result_show_backup, hs, classEmit, hq,
      classOut, fmt_retention, fmt_previous, fmt_next, hr, hp, hn,
      List.mem_append]

/-- A sample completed backup: retention status absent, previous key
present but empty, next key missing. -/
def sampleExtInfo : BackupExtInfo :=
  ⟨"b1", "pg1", "DONE", "9.3", "/data", [], 10, 5, "1", "w1", "w2", "3",
   "t0", "t1", "0", "0", "x0", "x1", "4", 7, "wl", none, some none, none,
   none⟩

/-- Witness for C9: on a concrete completed backup the three catalog
lines carry the fallback, the oldest-backup sentinel, and the
not-available default respectively. -/
theorem show_backup_defaults_witness :
    ((⟨.stdout, "    Retention Policy: " ++ "not enforced"⟩ : Line)
      ∈ (ConsoleOutputWriter.result_show_backup false
          (ConsoleOutputWriter.new false false) sampleExtInfo ⟨false, 1⟩).2.2) ∧
    ((⟨.stdout, "    Previous Backup : " ++
        "- (this is the oldest base backup)"⟩ : Line)
      ∈ (ConsoleOutputWriter.result_show_backup false
          (ConsoleOutputWriter.new false false) sampleExtInfo ⟨false, 1⟩).2.2) ∧
    ((⟨.stdout, "    Next Backup     : " ++ "not available"⟩ : Line)
      ∈ (ConsoleOutputWriter.result_show_backup false
          (ConsoleOutputWriter.new false false) sampleExtInfo ⟨false, 1⟩).2.2) :=
  show_backup_defaults (ConsoleOutputWriter.new false false) sampleExtInfo
    ⟨false, 1⟩ rfl rfl

/-- C7: `set_output_writer` invokes `close()` on the previously active
writer, as the first event of its trace; every following event of the
call is a printed line (in particular no method is invoked on the newly
installed writer during the replacement), and the installed writer is
the one resolved from the argument (registry instantiation or the
object itself). -/
theorem set_output_writer_closes_old_first (nw : NewWriter) (d q : Bool)
    (s : ModuleState) :
    ((set_output_writer nw d q s).2.head? =
        some (Event.closeCall s.writer)) ∧
    ((set_output_writer nw d q s).2.tail.all Event.isLine = true) ∧
    ((set_output_writer nw d q s).1.writer = resolveWriter nw d q) :=
  ⟨rfl, linesEv_all_isLine _, rfl⟩

/-- C8: the global error state is monotonic — once `error_occurred` is
true, no facade operation (and through dispatch no writer operation:
emit, `init_*`, `result_*`, `close`, `set_output_writer`) resets it, for
any single operation and for any remaining sequence of operations in
the run. -/
theorem error_state_monotonic (op : FacadeOp) (ops : List FacadeOp)
    (s : ModuleState) (hg : s.error_occurred = true) :
    ((runOp op s).state.error_occurred = true) ∧
    ((runSeq ops s).error_occurred = true) := by
  refine ⟨runOp_error_mono op s hg, ?_⟩
  induction ops generalizing s with
  | nil => exact hg
  | cons op1 rest ih =>
      have heq : runSeq (op1 :: rest) s =
          match runOp op1 s with
          | ⟨s1, _, some _⟩ => s1
          | ⟨s1, _, none⟩ => runSeq rest s1 := rfl
      rw [heq]
      cases ho : runOp op1 s with
      | mk s1 ev t =>
          have h1 : s1.error_occurred = true := by
            have hmono := runOp_error_mono op1 s hg
            rw [ho] at hmono
            exact hmono
          cases t with
          | none => exact ih s1 h1
          | some t1 => exact h1

/-- Witness for C8: starting from a state with the error flag set, a
concrete run (a message, a check result, a writer swap, a close) keeps
the flag set, as does a single `result` operation. -/
theorem error_state_monotonic_witness :
    ((runOp (.resultOp "check" (.check "pg1" "c" true none))
        ⟨true, 1, .console (ConsoleOutputWriter.new false false)⟩).state.error_occurred
      = true) ∧
    ((runSeq
        [.infoOp "hello %s" [.val (.pstr "world")],
         .resultOp "check" (.check "pg1" "c" true none),
         .setWriterOp (.name "console") false false,
         .errorOp "e" [] true,
         .closeAndExitOp]
        ⟨true, 1, .console (ConsoleOutputWriter.new false false)⟩).error_occurred
      = true) :=
  error_state_monotonic (.resultOp "check" (.check "pg1" "c" true none))
    [.infoOp "hello %s" [.val (.pstr "world")],
     .resultOp "check" (.check "pg1" "c" true none),
     .setWriterOp (.name "console") false false,
     .errorOp "e" [] true,
     .closeAndExitOp]
    ⟨true, 1, .console (ConsoleOutputWriter.new false false)⟩ rfl

end Barman
